import Mathlib

/-!
OneInBox front-end (`static/main.js`): a verification development.

The script polls a backend for messages, renders the last fifty of them as
cards, animates four counters and lets the user send or clear messages.

The embedding is shallow.  The page is a record (`World`) holding the pieces of
the document and of the runtime that the script reads or writes; every function
of the script becomes a function on that record.  The outcome of each network
request is an argument of the function that issues it, and every request that
is issued is appended to `World.requests`.

What is abstracted, once and for all:
* JSON numbers are integers, and arithmetic on them is exact;
* strings are sequences of Unicode characters (not UTF-16 code units);
* the elements the script looks up by id exist in the document;
* `Math.round` of the floating-point accumulator of `animateNumber` is a
  parameter `rnd` of the model (start value, target, tick number): the theorems
  hold for every such function, and `idealRound` is the one of exact arithmetic;
* the animation delay of a card, `index * 0.05` seconds, is kept as `index`.
-/

namespace OneInBox

/-! ## JavaScript values as they come out of `res.json()` -/

/-- A parsed JSON value.  An object is the list of its own properties; a name
that occurs twice in the list stands for its first occurrence. -/
inductive JVal where
  | null
  | bool (b : Bool)
  | num (n : Int)
  | str (s : String)
  | arr (items : List JVal)
  | obj (fields : List (String × JVal))

/-- Exceptions the script can meet. -/
inductive JsError where
  | networkError
  | syntaxError
  | typeError
  deriving DecidableEq, Repr

/-- Outcome of `await fetch(url)` followed by `await res.json()`. -/
inductive Fetched (α : Type) where
  | networkError
  | invalidJson
  | json (body : α)

mutual
/-- String conversion (`ToString`) of a value interpolated in a template
literal.  An object is converted through `toString` and then `valueOf`: with no
property `toString` of its own it inherits the one that answers
`[object Object]`; with one (never callable in JSON) neither method gives a
primitive and a `TypeError` is thrown.  An array is converted through `join`. -/
def jsToString : JVal → Except JsError String
  | .null => .ok "null"
  | .bool b => .ok (if b then "true" else "false")
  | .num n => .ok (toString n)
  | .str s => .ok s
  | .arr items => jsJoin items
  | .obj fields =>
    if (fields.lookup "toString").isSome then .error .typeError else .ok "[object Object]"
termination_by structural v => v
/-- The comma-separated rendering of an array: `Array.prototype.join`, where
`null` entries render as the empty string and every other entry is converted,
first entry first. -/
def jsJoin : List JVal → Except JsError String
  | [] => .ok ""
  | .null :: [] => .ok ""
  | x :: [] => jsToString x
  | .null :: rest =>
    match jsJoin rest with
    | .ok tail => .ok ("," ++ tail)
    | .error e => .error e
  | x :: rest =>
    match jsToString x with
    | .error e => .error e
    | .ok head =>
      match jsJoin rest with
      | .ok tail => .ok (head ++ "," ++ tail)
      | .error e => .error e
termination_by structural v => v
end

/-- The text `ToString` gives for a value it converts, and the empty text for a
value on which it throws. -/
def textOf (v : JVal) : String :=
  match jsToString v with
  | .ok s => s
  | .error _ => ""

/-- Whether `ToString` converts the value. -/
def converts (v : JVal) : Bool :=
  match jsToString v with
  | .ok _ => true
  | .error _ => false

/-- Truthiness of a value, as tested by `||`. -/
def truthy : JVal → Bool
  | .null => false
  | .bool b => b
  | .num n => n != 0
  | .str s => s != ""
  | .arr _ => true
  | .obj _ => true

/-- Reading `m.key` on a value that is not `null`, for the property names the
script reads on a message (`type`, `platform`, `customer`, `time`, `content`,
`icon`): only an object can have them; `none` is `undefined`. -/
def getField (m : JVal) (key : String) : Option JVal :=
  match m with
  | .obj fields => fields.lookup key
  | _ => none

/-- The expression `v || "fallback"`. -/
def orDefault (v : Option JVal) (fallback : String) : JVal :=
  match v with
  | some x => if truthy x then x else .str fallback
  | none => .str fallback

/-- The expression `v === "literal"`. -/
def strictEqStr (v : Option JVal) (literal : String) : Bool :=
  match v with
  | some (.str s) => s == literal
  | _ => false

/-! ## Message cards -/

/-- The `div` built for one message. `animationDelayIndex` stands for the style
`animationDelay = index * 0.05 s`. -/
structure MessageDiv where
  className : String
  animationDelayIndex : Nat
  innerHTML : String
  deriving DecidableEq, Repr

/-- The markup of the empty state, lines 19-25. -/
def emptyStateMarkup : String :=
  "\n" ++
  "                <div class=\"text-center py-16 opacity-60\">\n" ++
  "                    <div class=\"text-6xl mb-4\">📭</div>\n" ++
  "                    <p class=\"text-xl font-bold\">No hay mensajes aún</p>\n" ++
  "                    <p class=\"text-sm mt-2\">Usa el simulador o espera la generación automática</p>\n" ++
  "                </div>\n" ++
  "            "

/-- The fixed texts of the template literal of lines 88-112, between its
interpolations: before `borderClass`. -/
def cardSeg0 : String :=
  "\n" ++
  "        <div class=\"card p-4 "

/-- Between `borderClass` and `iconBgClass`. -/
def cardSeg1 : String :=
  " hover:shadow-lg transition-shadow\">\n" ++
  "            <!\x2d\x2d Header \x2d\x2d>\n" ++
  "            <div class=\"flex items-center justify-between mb-3\">\n" ++
  "                <div class=\"flex items-center gap-3\">\n" ++
  "                    <div class=\"platform-icon "

/-- Between `iconBgClass` and `icon`. -/
def cardSeg2 : String :=
  "\">\n" ++
  "                        "

/-- Between `icon` and `customer`. -/
def cardSeg3 : String :=
  "\n" ++
  "                    </div>\n" ++
  "                    <div>\n" ++
  "                        <p class=\"font-semibold text-sm text-slate-900 dark:text-white\">"

/-- Between `customer` and `platform`. -/
def cardSeg4 : String :=
  "</p>\n" ++
  "                        <p class=\"text-xs text-slate-500 dark:text-slate-400\">"

/-- Between `platform` and `time`. -/
def cardSeg5 : String :=
  "</p>\n" ++
  "                    </div>\n" ++
  "                </div>\n" ++
  "                <div class=\"text-right\">\n" ++
  "                    <p class=\"text-xs font-mono text-slate-500 dark:text-slate-400\">"

/-- Between `time` and the badge. -/
def cardSeg6 : String :=
  "</p>\n" ++
  "                    "

/-- Between the badge and `content`. -/
def cardSeg7 : String :=
  "\n" ++
  "                </div>\n" ++
  "            </div>\n" ++
  "            \n" ++
  "            <!\x2d\x2d Content \x2d\x2d>\n" ++
  "            <div class=\"pl-13 bg-slate-50 dark:bg-slate-900 rounded-lg p-3 border border-slate-200 dark:border-slate-800\">\n" ++
  "                <p class=\"text-sm text-slate-700 dark:text-slate-300 leading-relaxed\">"

/-- After `content`. -/
def cardSeg8 : String :=
  "</p>\n" ++
  "            </div>\n" ++
  "        </div>\n" ++
  "    "

/-- The badge interpolated at line 103 when the message is a bot reply. -/
def autoBadge : String :=
  "<span class=\"inline-block px-2 py-1 bg-emerald-100 dark:bg-emerald-950 text-emerald-700 dark:text-emerald-300 rounded-md text-xs font-semibold mt-1\">AUTO</span>"

/-- The constant `isBot` of line 59: `m.type === "bot"`. -/
def isBot (m : JVal) : Bool := strictEqStr (getField m "type") "bot"

/-- The constant `platform` of line 60: `m.platform || "Desconocido"`. -/
def platformOf (m : JVal) : JVal := orDefault (getField m "platform") "Desconocido"

/-- The constant `customer` of line 61: `m.customer || "Anónimo"`. -/
def customerOf (m : JVal) : JVal := orDefault (getField m "customer") "Anónimo"

/-- The constant `time` of line 62: `m.time`, or two dashes, a colon and two dashes. -/
def timeOf (m : JVal) : JVal := orDefault (getField m "time") "\x2d\x2d:\x2d\x2d"

/-- The constant `content` of line 63: `m.content || ""`. -/
def contentOf (m : JVal) : JVal := orDefault (getField m "content") ""

/-- The constant `icon` of line 64: `m.icon || "💬"`. -/
def iconOf (m : JVal) : JVal := orDefault (getField m "icon") "💬"

/-- The pair `(borderClass, iconBgClass)` after lines 67-86: both start empty;
a bot message takes the bot classes, any other message goes through the three
platform tests one after the other. -/
def styleClasses (m : JVal) : String × String :=
  let c : String × String := ("", "")
  if isBot m then
    ("border-bot", "bg-bot")
  else
    let c := if strictEqStr (some (platformOf m)) "WhatsApp" then ("border-whatsapp", "bg-whatsapp") else c
    let c := if strictEqStr (some (platformOf m)) "Facebook" then ("border-facebook", "bg-facebook") else c
    let c := if strictEqStr (some (platformOf m)) "Instagram" then ("border-instagram", "bg-instagram") else c
    c

/-- The variable `borderClass` at line 88. -/
def borderClass (m : JVal) : String := (styleClasses m).1

/-- The variable `iconBgClass` at line 88. -/
def iconBgClass (m : JVal) : String := (styleClasses m).2

/-- The interpolation of line 103. -/
def badgeSlot (m : JVal) : String := if isBot m then autoBadge else ""

/-- The template literal of lines 88-112 up to the interpolation of `content`,
for a message whose interpolated values convert. -/
def cardHead (m : JVal) : String :=
  cardSeg0 ++ borderClass m ++ cardSeg1 ++ iconBgClass m ++ cardSeg2 ++ textOf (iconOf m) ++
  cardSeg3 ++ textOf (customerOf m) ++ cardSeg4 ++ textOf (platformOf m) ++ cardSeg5 ++
  textOf (timeOf m) ++ cardSeg6 ++ badgeSlot m ++ cardSeg7

/-- The template literal of lines 88-112, for a message whose interpolated
values convert. -/
def cardMarkup (m : JVal) : String :=
  cardHead m ++ textOf (contentOf m) ++ cardSeg8

/-- Number of `<` characters of a markup: the tags it opens or closes. -/
def tagOpeners (markup : String) : Nat := markup.toList.count '<'

/-- The element `createMessageElement` returns when it returns. -/
def messageCard (m : JVal) (index : Nat) : MessageDiv :=
  { className := "message-item", animationDelayIndex := index, innerHTML := cardMarkup m }

/-- The function `createMessageElement(m, index)`: reading `m.type` on `null`
(line 59) throws a `TypeError`; the template literal of lines 88-112 converts
`icon`, `customer`, `platform`, `time` and `content` in this order and throws
the `TypeError` of the first one that does not convert; otherwise the card is
built. -/
def createMessageElement (m : JVal) (index : Nat) : Except JsError MessageDiv :=
  match m with
  | .null => .error .typeError
  | _ =>
    match jsToString (iconOf m) with
    | .error e => .error e
    | .ok icon =>
      match jsToString (customerOf m) with
      | .error e => .error e
      | .ok customer =>
        match jsToString (platformOf m) with
        | .error e => .error e
        | .ok platform =>
          match jsToString (timeOf m) with
          | .error e => .error e
          | .ok time =>
            match jsToString (contentOf m) with
            | .error e => .error e
            | .ok content =>
              .ok { className := "message-item"
                    animationDelayIndex := index
                    innerHTML :=
                      cardSeg0 ++ borderClass m ++ cardSeg1 ++ iconBgClass m ++ cardSeg2 ++ icon ++
                      cardSeg3 ++ customer ++ cardSeg4 ++ platform ++ cardSeg5 ++
                      time ++ cardSeg6 ++ badgeSlot m ++ cardSeg7 ++ content ++ cardSeg8 }

/-- A message `createMessageElement` builds a card for: a value other than
`null` whose `icon`, `customer`, `platform`, `time` and `content`, after their
fallbacks, convert to strings. -/
def isMessage (m : JVal) : Bool :=
  (match m with
   | .null => false
   | _ => true) &&
  converts (iconOf m) && converts (customerOf m) && converts (platformOf m) &&
  converts (timeOf m) && converts (contentOf m)

/-! ## The page -/

/-- The message container `#messages`: the markup last assigned to `innerHTML`,
the nodes appended since with `appendChild`, and whether `scrollTop` was set to
`scrollHeight` since. -/
structure Box where
  innerHTML : String
  children : List MessageDiv
  scrolledToEnd : Bool
  deriving DecidableEq, Repr

/-- The assignment `box.innerHTML = markup`: the former content is dropped. -/
def Box.setInnerHTML (box : Box) (markup : String) : Box :=
  { box with innerHTML := markup, children := [] }

/-- The call `box.appendChild(div)`. -/
def Box.appendChild (box : Box) (div : MessageDiv) : Box :=
  { box with children := box.children ++ [div] }

/-- The JSON body of `POST /api/send`. -/
structure SendBody where
  platform : String
  message : String
  customer : String
  deriving DecidableEq, Repr

/-- A call of `fetch`. -/
structure Request where
  method : String
  url : String
  body : Option SendBody
  deriving DecidableEq, Repr

/-- The closure of one `setInterval` callback of `animateNumber`: the element,
`targetValue`, the `currentValue` read at the call, and the counter `step`.
The accumulator `current` is `currentValue + step * stepValue`. -/
structure Interval where
  id : Nat
  elementId : String
  targetValue : Int
  currentValue : Int
  step : Nat
  deriving DecidableEq, Repr

/-- The element `event.target` of `sendManualMessage`. -/
structure Button where
  textContent : String
  green : Bool
  deriving DecidableEq, Repr

/-- The parts of the document and of the runtime the script touches. -/
structure World where
  box : Box
  /-- Text (`textContent`) of the element with the given id. -/
  text : String → String
  /-- Live `setInterval` timers of `animateNumber`. -/
  intervals : List Interval
  /-- The id the next `setInterval` returns. -/
  nextTimerId : Nat
  /-- Every `fetch` issued so far, oldest first. -/
  requests : List Request
  /-- Calls of `loadStats` waiting for their response. -/
  pendingStats : Nat
  /-- Calls of `console.error`, oldest first. -/
  errors : List (String × JsError)
  /-- Calls of `alert`, oldest first. -/
  alerts : List String
  /-- Value of `#platform-select`. -/
  platformSelect : String
  /-- Value of `#message-input`. -/
  messageInput : String
  button : Button
  /-- Pending `setTimeout` callbacks of `sendManualMessage`, each with the
  `originalText` it restores. -/
  restores : List String

/-- The call `fetch(url)` with the default method. -/
def World.get (w : World) (url : String) : World :=
  { w with requests := w.requests ++ [{ method := "GET", url := url, body := none }] }

/-- The call `console.error(label, error)`. -/
def World.logError (w : World) (label : String) (e : JsError) : World :=
  { w with errors := w.errors ++ [(label, e)] }

/-- The call `alert(text)`. -/
def World.alert (w : World) (text : String) : World :=
  { w with alerts := w.alerts ++ [text] }

/-- What an async function leaves: the page, and the exception its promise is
rejected with, if any. -/
structure Completion where
  world : World
  thrown : Option JsError

/-! ## loadMessages -/

/-- The value of `messages.length`: a `TypeError` on `null`, the number of
entries of an array, the length of a string, the property of that name of an
object, `undefined` on a number or a boolean. -/
def lengthOf (messages : JVal) : Except JsError (Option JVal) :=
  match messages with
  | .null => .error .typeError
  | .arr items => .ok (some (.num items.length))
  | .str s => .ok (some (.num s.length))
  | .obj fields => .ok (fields.lookup "length")
  | _ => .ok none

/-- The expression `v === 0`. -/
def strictEqZero (v : Option JVal) : Bool :=
  match v with
  | some (.num n) => n == 0
  | _ => false

/-- The value of `messages.slice(-50)`: the last fifty entries of an array, the last
fifty characters of a string; on anything else `slice` is not a function. -/
def sliceLast50 (messages : JVal) : Except JsError JVal :=
  match messages with
  | .arr items => .ok (.arr (items.drop (items.length - 50)))
  | .str s => .ok (.str (String.mk (s.toList.drop (s.length - 50))))
  | _ => .error .typeError

/-- The loop of `forEach` from position `index` on: the cards are appended one
by one; an exception of `createMessageElement` ends the loop and leaves the
cards appended so far. -/
def appendCards : List JVal → Nat → Box → Box × Option JsError
  | [], _, box => (box, none)
  | m :: rest, index, box =>
    match createMessageElement m index with
    | .error e => (box, some e)
    | .ok messageDiv => appendCards rest (index + 1) (box.appendChild messageDiv)

/-- The call `recentMessages.forEach(...)` of lines 35-38: only an array has `forEach`. -/
def forEachCard (recentMessages : JVal) (box : Box) : Box × Option JsError :=
  match recentMessages with
  | .arr items => appendCards items 0 box
  | _ => (box, some .typeError)

/-- The synchronous start of `loadStats()`: the request is issued and the call
waits for the response. -/
def loadStatsStart (w : World) : World :=
  { w.get "/api/stats" with pendingStats := w.pendingStats + 1 }

/-- The `try` block of `loadMessages` (lines 13-44), given the outcome of the
request: the page it leaves and the exception it ends with, if any. -/
def loadMessagesTry (response : Fetched JVal) (w : World) : World × Option JsError :=
  let w := w.get "/api/messages"
  match response with
  | .networkError => (w, some .networkError)
  | .invalidJson => (w, some .syntaxError)
  | .json messages =>
    match lengthOf messages with
    | .error e => (w, some e)
    | .ok len =>
      if strictEqZero len then
        ({ w with box := w.box.setInnerHTML emptyStateMarkup }, none)
      else
        let w := { w with box := w.box.setInnerHTML "" }
        match sliceLast50 messages with
        | .error e => (w, some e)
        | .ok recentMessages =>
          match forEachCard recentMessages w.box with
          | (box, some e) => ({ w with box := box }, some e)
          | (box, none) =>
            let w := { w with box := { box with scrolledToEnd := true } }
            (loadStatsStart w, none)

/-- The function `loadMessages()`: the `try` block, and the `catch` clause that logs. -/
def loadMessages (response : Fetched JVal) (w : World) : Completion :=
  match loadMessagesTry response w with
  | (w, none) => { world := w, thrown := none }
  | (w, some e) => { world := w.logError "Error cargando mensajes:" e, thrown := none }

/-! ## Counters -/

/-- White space and line terminators of ECMAScript, by code point: what
`parseInt` skips and `trim` strips. -/
def isJsWhitespace (c : Char) : Bool :=
  let n := c.toNat
  n == 9 || n == 10 || n == 11 || n == 12 || n == 13 || n == 32 || n == 160 || n == 5760 ||
  (8192 ≤ n && n ≤ 8202) || n == 8232 || n == 8233 || n == 8239 || n == 8287 || n == 12288 ||
  n == 65279

/-- Value of a character as a digit of the given radix (10 or 16). -/
def digitValue (radix : Nat) (c : Char) : Option Nat :=
  let n := c.toNat
  let d : Option Nat :=
    if 48 ≤ n ∧ n ≤ 57 then some (n - 48)
    else if 97 ≤ n ∧ n ≤ 102 then some (n - 87)
    else if 65 ≤ n ∧ n ≤ 70 then some (n - 55)
    else none
  match d with
  | some v => if v < radix then some v else none
  | none => none

/-- The digits of the longest prefix made of digits of the radix. -/
def leadingDigits (radix : Nat) : List Char → List Nat
  | [] => []
  | c :: cs =>
    match digitValue radix c with
    | some d => d :: leadingDigits radix cs
    | none => []

/-- The number written by a list of digits, most significant first. -/
def digitsValue (radix : Nat) (ds : List Nat) : Nat :=
  ds.foldl (fun acc d => acc * radix + d) 0

/-- The call `parseInt(text)` without a radix: leading white space is skipped, a sign is
read, a prefix `0x` or `0X` selects radix 16, and the longest run of digits is
the value; `none` is `NaN`. -/
def parseInt (text : String) : Option Int :=
  let cs := text.toList.dropWhile isJsWhitespace
  let signed : Bool × List Char :=
    match cs with
    | c :: rest => if c = '-' then (true, rest) else if c = '+' then (false, rest) else (false, cs)
    | [] => (false, cs)
  let based : Nat × List Char :=
    match signed.2 with
    | c :: d :: rest => if c = '0' ∧ (d = 'x' ∨ d = 'X') then (16, rest) else (10, signed.2)
    | _ => (10, signed.2)
  let ds := leadingDigits based.1 based.2
  if ds.isEmpty then none
  else if signed.1 then some (-(digitsValue based.1 ds : Int))
  else some (digitsValue based.1 ds : Int)

/-- The characters `0` to `9`. -/
def IsDigits (p : List Char) : Prop := ∀ c ∈ p, 48 ≤ c.toNat ∧ c.toNat ≤ 57

/-- The expression `parseInt(element.textContent) || 0`. -/
def currentValueOf (textContent : String) : Int :=
  match parseInt textContent with
  | some n => if n != 0 then n else 0
  | none => 0

/-- The assignment `element.textContent = value` on the element with the given id. -/
def setText (text : String → String) (elementId : String) (value : String) : String → String :=
  fun x => if x = elementId then value else text x

/-- The constant `steps` of line 146. -/
def steps : Nat := 20

/-- The function `animateNumber(elementId, targetValue)`: nothing happens when the displayed
value is the target; otherwise `setInterval` registers the callback. -/
def animateNumber (elementId : String) (targetValue : Int) (w : World) : World :=
  let currentValue := currentValueOf (w.text elementId)
  if currentValue = targetValue then w
  else
    { w with
      intervals := w.intervals ++
        [{ id := w.nextTimerId, elementId := elementId, targetValue := targetValue,
           currentValue := currentValue, step := 0 }]
      nextTimerId := w.nextTimerId + 1 }

/-- Value of `Math.round` on the accumulator after `step` additions in exact arithmetic:
the floor of `currentValue + step * (targetValue - currentValue) / 20 + 1/2`. -/
def idealRound (currentValue targetValue : Int) (step : Nat) : Int :=
  (20 * currentValue + step * (targetValue - currentValue) + 10) / 20

/-- One run of the callback of the live interval `id` (lines 153-163); a timer
that was cleared, or never set, does not fire. -/
def tick (rnd : Int → Int → Nat → Int) (id : Nat) (w : World) : World :=
  match w.intervals.find? (fun t => t.id == id) with
  | none => w
  | some t =>
    let step := t.step + 1
    if step ≥ steps then
      { w with
        text := setText w.text t.elementId (toString t.targetValue)
        intervals := w.intervals.filter (fun u => u.id != id) }
    else
      { w with
        text := setText w.text t.elementId (toString (rnd t.currentValue t.targetValue step))
        intervals := w.intervals.map (fun u => if u.id == id then { u with step := step } else u) }

/-- What can happen to the counters, one at a time: a timer fires, or
`animateNumber` is called. -/
inductive Event where
  | tick (id : Nat)
  | animate (elementId : String) (targetValue : Int)
  deriving DecidableEq, Repr

/-- The page after one event. -/
def Event.apply (rnd : Int → Int → Nat → Int) (e : Event) (w : World) : World :=
  match e with
  | .tick id => OneInBox.tick rnd id w
  | .animate elementId targetValue => animateNumber elementId targetValue w

/-- The page after a sequence of events, first event first. -/
def run (rnd : Int → Int → Nat → Int) (events : List Event) (w : World) : World :=
  events.foldl (fun acc e => e.apply rnd acc) w

/-- The event is not a call of `animateNumber` on the element. -/
def Event.Avoids (e : Event) (elementId : String) : Prop :=
  match e with
  | .tick _ => True
  | .animate x _ => x ≠ elementId

/-- Whether an event avoids an element can be computed. -/
instance Event.decidableAvoids (e : Event) (elementId : String) : Decidable (e.Avoids elementId) :=
  match e with
  | .tick _ => isTrue trivial
  | .animate x _ => inferInstanceAs (Decidable (x ≠ elementId))

/-- The element shows `shown` and no live timer writes to it. -/
def Settled (elementId shown : String) (w : World) : Prop :=
  w.text elementId = shown ∧ ∀ t ∈ w.intervals, t.elementId ≠ elementId

/-- The timer `id` is live, animates the element toward `targetValue`, has run
`k` of its ticks, and is the only live timer that writes to the element. -/
def InFlight (elementId : String) (targetValue : Int) (id k : Nat) (w : World) : Prop :=
  id < w.nextTimerId ∧ k < steps ∧
  (∃ t ∈ w.intervals, t.id = id) ∧
  (∀ t ∈ w.intervals, t.id = id →
    t.elementId = elementId ∧ t.targetValue = targetValue ∧ t.step = k) ∧
  (∀ t ∈ w.intervals, t.elementId = elementId → t.id = id)

/-- The body of a successful `GET /api/stats`. -/
structure Stats where
  total : Int
  whatsapp : Int
  instagram : Int
  facebook : Int
  deriving DecidableEq, Repr

/-- The rest of `loadStats()` once the response is there (lines 123-133); without
a waiting call there is nothing to resume. -/
def loadStatsResume (response : Fetched Stats) (w : World) : World :=
  if w.pendingStats = 0 then w
  else
    let w := { w with pendingStats := w.pendingStats - 1 }
    match response with
    | .networkError => w.logError "Error cargando estadísticas:" .networkError
    | .invalidJson => w.logError "Error cargando estadísticas:" .syntaxError
    | .json stats =>
      let w := animateNumber "stat-total" stats.total w
      let w := animateNumber "stat-whatsapp" stats.whatsapp w
      let w := animateNumber "stat-instagram" stats.instagram w
      animateNumber "stat-facebook" stats.facebook w

/-- The function `loadStats()` run to its end. -/
def loadStats (response : Fetched Stats) (w : World) : World :=
  loadStatsResume response (loadStatsStart w)

/-! ## User actions and the generator -/

/-- The method `String.prototype.trim`. -/
def jsTrim (s : String) : String :=
  String.mk ((s.toList.dropWhile isJsWhitespace).reverse.dropWhile isJsWhitespace).reverse

/-- The call `fetch(url, ...)` with method `POST`. -/
def World.post (w : World) (url : String) (body : Option SendBody) : World :=
  { w with requests := w.requests ++ [{ method := "POST", url := url, body := body }] }

/-- The function `generateMessage()`; `generated` tells whether `GET /api/generate` completed. -/
def generateMessage (generated : Bool) (response : Fetched JVal) (w : World) : Completion :=
  let w := w.get "/api/generate"
  if generated then
    loadMessages response w
  else
    { world := w.logError "Error generando mensaje:" .networkError, thrown := none }

/-- The function `sendManualMessage()`; `sent` is `none` when `POST /api/send` does not
complete and `some ok` with the flag `response.ok` otherwise. -/
def sendManualMessage (sent : Option Bool) (response : Fetched JVal) (w : World) : Completion :=
  let platform := w.platformSelect
  let message := jsTrim w.messageInput
  if message = "" then
    { world := w.alert "\u26A0\uFE0F Por favor escribe un mensaje", thrown := none }
  else
    let w := w.post "/api/send" (some { platform := platform, message := message, customer := "Usuario Demo" })
    match sent with
    | none =>
      { world := (w.logError "Error enviando mensaje:" .networkError).alert "\u274C Error al enviar mensaje",
        thrown := none }
    | some false => { world := w, thrown := none }
    | some true =>
      let originalText := w.button.textContent
      let w := { w with
        messageInput := ""
        button := { textContent := "\u2705 ENVIADO!", green := true }
        restores := w.restores ++ [originalText] }
      loadMessages response w

/-- The function `clearMessages()`; `confirmed` is the answer to `confirm`, `cleared` tells
whether `POST /api/clear` completed. -/
def clearMessages (confirmed cleared : Bool) (response : Fetched JVal) (w : World) : Completion :=
  if !confirmed then
    { world := w, thrown := none }
  else
    let w := w.post "/api/clear" none
    if cleared then
      { world := (loadMessages response w).world.alert "\u2705 Mensajes eliminados correctamente",
        thrown := none }
    else
      { world := (w.logError "Error limpiando mensajes:" .networkError).alert "\u274C Error al limpiar mensajes",
        thrown := none }

/-- The page when the script starts, with counters showing zero; the two timers
of the loop (lines 274 and 277) hold the ids 1 and 2. -/
def World.initial : World :=
  { box := { innerHTML := "", children := [], scrolledToEnd := false }
    text := fun _ => "0"
    intervals := []
    nextTimerId := 3
    requests := []
    pendingStats := 0
    errors := []
    alerts := []
    platformSelect := "WhatsApp"
    messageInput := ""
    button := { textContent := "ENVIAR", green := false }
    restores := [] }

/-! ## Building a card -/

theorem textOf_ok (v : JVal) (s : String) (h : jsToString v = .ok s) : textOf v = s := by
  simp [textOf, h]

theorem converts_iff (v : JVal) : converts v = true ↔ ∃ s, jsToString v = .ok s := by
  unfold converts
  cases h : jsToString v with
  | ok s => simp
  | error e => simp

theorem converts_str (s : String) : converts (.str s) = true := by
  simp [converts, jsToString]

/-- The card `createMessageElement` builds for a message. -/
theorem createMessageElement_ok (m : JVal) (index : Nat) (h : isMessage m = true) :
    createMessageElement m index = .ok (messageCard m index) := by
  unfold isMessage at h
  simp only [Bool.and_eq_true] at h
  obtain ⟨⟨⟨⟨⟨hnull, h1⟩, h2⟩, h3⟩, h4⟩, h5⟩ := h
  obtain ⟨s1, e1⟩ := (converts_iff _).1 h1
  obtain ⟨s2, e2⟩ := (converts_iff _).1 h2
  obtain ⟨s3, e3⟩ := (converts_iff _).1 h3
  obtain ⟨s4, e4⟩ := (converts_iff _).1 h4
  obtain ⟨s5, e5⟩ := (converts_iff _).1 h5
  cases m with
  | null => simp at hnull
  | _ =>
    simp only [createMessageElement, e1, e2, e3, e4, e5, messageCard, cardMarkup, cardHead,
      textOf_ok _ _ e1, textOf_ok _ _ e2, textOf_ok _ _ e3, textOf_ok _ _ e4, textOf_ok _ _ e5]

/-- When `createMessageElement` returns, its argument is a message and the
element is its card. -/
theorem createMessageElement_inv (m : JVal) (index : Nat) (div : MessageDiv)
    (h : createMessageElement m index = .ok div) :
    isMessage m = true ∧ div = messageCard m index := by
  have hm : isMessage m = true := by
    cases m with
    | null => simp [createMessageElement] at h
    | _ =>
      simp only [createMessageElement] at h
      simp only [isMessage, converts, Bool.true_and, Bool.and_eq_true]
      split at h
      · cases h
      · next icon e1 =>
        split at h
        · cases h
        · next customer e2 =>
          split at h
          · cases h
          · next platform e3 =>
            split at h
            · cases h
            · next time e4 =>
              split at h
              · cases h
              · next content e5 =>
                simp [e1, e2, e3, e4, e5]
  refine ⟨hm, ?_⟩
  rw [createMessageElement_ok m index hm] at h
  cases h
  rfl

/-- An object with only a content, a string, is a message. -/
theorem isMessage_content (s : String) : isMessage (.obj [("content", .str s)]) = true := by
  by_cases hs : s = "" <;>
    simp [isMessage, converts, jsToString, iconOf, customerOf, platformOf, timeOf, contentOf,
      orDefault, getField, List.lookup, truthy, hs]

/-- The empty object is a message. -/
theorem isMessage_empty : isMessage (.obj []) = true := by
  simp [isMessage, converts, jsToString, iconOf, customerOf, platformOf, timeOf, contentOf,
    orDefault, getField, List.lookup]

/-! ## Styling of a card -/

theorem strictEqStr_str (s literal : String) :
    strictEqStr (some (.str s)) literal = true ↔ s = literal := by
  simp [strictEqStr]

theorem isBot_iff (m : JVal) : isBot m = true ↔ getField m "type" = some (.str "bot") := by
  unfold isBot strictEqStr
  split
  · next s h => simp [h]
  · next h =>
    constructor
    · intro hf; cases hf
    · intro hg; exact absurd hg (by intro hg; exact h _ hg)

theorem platform_test (m : JVal) (literal : String) (h1 : literal ≠ "Desconocido")
    (h2 : literal ≠ "") :
    strictEqStr (some (platformOf m)) literal = true ↔
      getField m "platform" = some (.str literal) := by
  unfold platformOf orDefault
  cases hg : getField m "platform" with
  | none => simp [strictEqStr, Ne.symm h1]
  | some x =>
    cases x with
    | str s =>
      by_cases hs : s = ""
      · subst hs
        simp [truthy, strictEqStr, Ne.symm h1, Ne.symm h2]
      · simp [truthy, strictEqStr, hs]
    | null => simp [truthy, strictEqStr, Ne.symm h1]
    | bool b => cases b <;> simp [truthy, strictEqStr, Ne.symm h1]
    | num n => by_cases hn : n = 0 <;> simp [truthy, strictEqStr, Ne.symm h1, hn]
    | arr items => simp [truthy, strictEqStr]
    | obj fields => simp [truthy, strictEqStr]

/-- The classes of a message that is not a bot reply, by the three platform
tests of lines 74-85. -/
theorem styleClasses_customer (m : JVal) (hbot : isBot m = false) :
    styleClasses m =
      if strictEqStr (some (platformOf m)) "Instagram" then ("border-instagram", "bg-instagram")
      else if strictEqStr (some (platformOf m)) "Facebook" then ("border-facebook", "bg-facebook")
      else if strictEqStr (some (platformOf m)) "WhatsApp" then ("border-whatsapp", "bg-whatsapp")
      else ("", "") := by
  simp [styleClasses, hbot]

/-- C8: the styling of a card.  A message whose `type` is `"bot"` gets
`border-bot` / `bg-bot` whatever its platform; any other message gets the
classes of its platform when `platform` is exactly `"WhatsApp"`, `"Facebook"`
or `"Instagram"`, and the empty class otherwise (also when `platform` is
missing); the badge slot of the markup holds the AUTO badge exactly when
`type` is `"bot"`; `createMessageElement` builds a card for every message, and
every card it builds carries these classes and this badge in the markup of
lines 88-112. -/
theorem createMessageElement_styling (m : JVal) :
    (getField m "type" = some (.str "bot") →
      borderClass m = "border-bot" ∧ iconBgClass m = "bg-bot") ∧
    (getField m "type" ≠ some (.str "bot") →
      (getField m "platform" = some (.str "WhatsApp") →
        borderClass m = "border-whatsapp" ∧ iconBgClass m = "bg-whatsapp") ∧
      (getField m "platform" = some (.str "Facebook") →
        borderClass m = "border-facebook" ∧ iconBgClass m = "bg-facebook") ∧
      (getField m "platform" = some (.str "Instagram") →
        borderClass m = "border-instagram" ∧ iconBgClass m = "bg-instagram") ∧
      (getField m "platform" ≠ some (.str "WhatsApp") →
        getField m "platform" ≠ some (.str "Facebook") →
        getField m "platform" ≠ some (.str "Instagram") →
        borderClass m = "" ∧ iconBgClass m = "")) ∧
    (badgeSlot m = autoBadge ↔ getField m "type" = some (.str "bot")) ∧
    (getField m "type" ≠ some (.str "bot") → badgeSlot m = "") ∧
    (∀ index : Nat, isMessage m = true → ∃ div, createMessageElement m index = .ok div) ∧
    (∀ (index : Nat) (div : MessageDiv), createMessageElement m index = .ok div →
      ∃ icon customer platform time content,
        jsToString (iconOf m) = .ok icon ∧ jsToString (customerOf m) = .ok customer ∧
        jsToString (platformOf m) = .ok platform ∧ jsToString (timeOf m) = .ok time ∧
        jsToString (contentOf m) = .ok content ∧
        div.innerHTML =
          cardSeg0 ++ borderClass m ++ cardSeg1 ++ iconBgClass m ++ cardSeg2 ++
          icon ++ cardSeg3 ++ customer ++ cardSeg4 ++
          platform ++ cardSeg5 ++ time ++ cardSeg6 ++
          badgeSlot m ++ cardSeg7 ++ content ++ cardSeg8) := by
  have hW := platform_test m "WhatsApp" (by decide) (by decide)
  have hF := platform_test m "Facebook" (by decide) (by decide)
  have hI := platform_test m "Instagram" (by decide) (by decide)
  refine ⟨?_, ?_, ?_, ?_, ?_, ?_⟩
  · intro h
    have hb : isBot m = true := (isBot_iff m).2 h
    simp [borderClass, iconBgClass, styleClasses, hb]
  · intro h
    have hb : isBot m = false := by
      cases hc : isBot m with
      | false => rfl
      | true => exact absurd ((isBot_iff m).1 hc) h
    have hs := styleClasses_customer m hb
    refine ⟨?_, ?_, ?_, ?_⟩
    · intro hp
      have h1 : strictEqStr (some (platformOf m)) "WhatsApp" = true := hW.2 hp
      have h2 : strictEqStr (some (platformOf m)) "Facebook" = false := by
        cases hc : strictEqStr (some (platformOf m)) "Facebook" with
        | false => rfl
        | true => have := hF.1 hc; rw [hp] at this; simp at this
      have h3 : strictEqStr (some (platformOf m)) "Instagram" = false := by
        cases hc : strictEqStr (some (platformOf m)) "Instagram" with
        | false => rfl
        | true => have := hI.1 hc; rw [hp] at this; simp at this
      simp [borderClass, iconBgClass, hs, h1, h2, h3]
    · intro hp
      have h2 : strictEqStr (some (platformOf m)) "Facebook" = true := hF.2 hp
      have h3 : strictEqStr (some (platformOf m)) "Instagram" = false := by
        cases hc : strictEqStr (some (platformOf m)) "Instagram" with
        | false => rfl
        | true => have := hI.1 hc; rw [hp] at this; simp at this
      simp [borderClass, iconBgClass, hs, h2, h3]
    · intro hp
      have h3 : strictEqStr (some (platformOf m)) "Instagram" = true := hI.2 hp
      simp [borderClass, iconBgClass, hs, h3]
    · intro n1 n2 n3
      have h1 : strictEqStr (some (platformOf m)) "WhatsApp" = false := by
        cases hc : strictEqStr (some (platformOf m)) "WhatsApp" with
        | false => rfl
        | true => exact absurd (hW.1 hc) n1
      have h2 : strictEqStr (some (platformOf m)) "Facebook" = false := by
        cases hc : strictEqStr (some (platformOf m)) "Facebook" with
        | false => rfl
        | true => exact absurd (hF.1 hc) n2
      have h3 : strictEqStr (some (platformOf m)) "Instagram" = false := by
        cases hc : strictEqStr (some (platformOf m)) "Instagram" with
        | false => rfl
        | true => exact absurd (hI.1 hc) n3
      simp [borderClass, iconBgClass, hs, h1, h2, h3]
  · rw [← isBot_iff]
    unfold badgeSlot
    cases hb : isBot m with
    | true => simp
    | false =>
      simp only [Bool.false_eq_true, if_false, iff_false]
      decide
  · intro h
    have hb : isBot m = false := by
      cases hc : isBot m with
      | false => rfl
      | true => exact absurd ((isBot_iff m).1 hc) h
    simp [badgeSlot, hb]
  · intro index hm
    exact ⟨messageCard m index, createMessageElement_ok m index hm⟩
  · intro index div hdiv
    obtain ⟨hm, hcard⟩ := createMessageElement_inv m index div hdiv
    unfold isMessage at hm
    simp only [Bool.and_eq_true] at hm
    obtain ⟨⟨⟨⟨⟨_, h1⟩, h2⟩, h3⟩, h4⟩, h5⟩ := hm
    obtain ⟨s1, e1⟩ := (converts_iff _).1 h1
    obtain ⟨s2, e2⟩ := (converts_iff _).1 h2
    obtain ⟨s3, e3⟩ := (converts_iff _).1 h3
    obtain ⟨s4, e4⟩ := (converts_iff _).1 h4
    obtain ⟨s5, e5⟩ := (converts_iff _).1 h5
    refine ⟨s1, s2, s3, s4, s5, e1, e2, e3, e4, e5, ?_⟩
    rw [hcard]
    simp only [messageCard, cardMarkup, cardHead, textOf_ok _ _ e1, textOf_ok _ _ e2,
      textOf_ok _ _ e3, textOf_ok _ _ e4, textOf_ok _ _ e5]

/-- A customer message from Facebook, a bot reply on WhatsApp, and a message
without platform. -/
theorem createMessageElement_styling_witness :
    (borderClass (.obj [("type", .str "customer"), ("platform", .str "Facebook")]) = "border-facebook" ∧
      iconBgClass (.obj [("type", .str "customer"), ("platform", .str "Facebook")]) = "bg-facebook") ∧
    (borderClass (.obj [("type", .str "bot"), ("platform", .str "WhatsApp")]) = "border-bot" ∧
      iconBgClass (.obj [("type", .str "bot"), ("platform", .str "WhatsApp")]) = "bg-bot") ∧
    badgeSlot (.obj [("type", .str "bot"), ("platform", .str "WhatsApp")]) = autoBadge ∧
    (borderClass (.obj [("type", .str "customer")]) = "" ∧
      iconBgClass (.obj [("type", .str "customer")]) = "") ∧
    (∃ div, createMessageElement (.obj [("type", .str "bot"), ("platform", .str "WhatsApp")]) 0
      = .ok div) :=
  ⟨((createMessageElement_styling _).2.1 (by simp [getField, List.lookup])).2.1
      (by simp [getField, List.lookup]),
    (createMessageElement_styling _).1 (by simp [getField, List.lookup]),
    ((createMessageElement_styling _).2.2.1).2 (by simp [getField, List.lookup]),
    ((createMessageElement_styling _).2.1 (by simp [getField, List.lookup])).2.2.2
      (by simp [getField, List.lookup]) (by simp [getField, List.lookup])
      (by simp [getField, List.lookup]),
    (createMessageElement_styling _).2.2.2.2.1 0 (by decide)⟩

theorem tagOpeners_append (a b : String) : tagOpeners (a ++ b) = tagOpeners a + tagOpeners b := by
  simp [tagOpeners, String.toList, List.count_append]

theorem contentOf_str (fields : List (String × JVal)) (s : String)
    (h : fields.lookup "content" = some (.str s)) : contentOf (.obj fields) = .str s := by
  have hg : getField (.obj fields) "content" = some (.str s) := h
  unfold contentOf orDefault
  rw [hg]
  by_cases hs : s = ""
  · simp [truthy, hs]
  · simp [truthy, hs]

theorem cardHead_congr (fields other : List (String × JVal))
    (h : ∀ key : String, key ≠ "content" → other.lookup key = fields.lookup key) :
    cardHead (.obj other) = cardHead (.obj fields) := by
  have h1 := h "type" (by decide)
  have h2 := h "platform" (by decide)
  have h3 := h "customer" (by decide)
  have h4 := h "time" (by decide)
  have h5 := h "icon" (by decide)
  simp only [cardHead, borderClass, iconBgClass, styleClasses, badgeSlot, isBot, platformOf,
    customerOf, timeOf, iconOf, getField, h1, h2, h3, h4, h5]

/-- C7, as the code has it: the content of a message enters the markup of its
card as it is, without escaping.  For an object whose `content` is a string,
every card `createMessageElement` builds has as markup a head that does not
depend on `content`, then the text of `content` unchanged, then a fixed tail,
so the number of `<` of the markup is that of the head and tail plus that of
the content; and the card is built whenever the object is a message. -/
theorem cardMarkup_content_verbatim (fields : List (String × JVal)) (s : String)
    (h : fields.lookup "content" = some (.str s)) :
    (∀ (index : Nat) (div : MessageDiv), createMessageElement (.obj fields) index = .ok div →
      div.innerHTML = cardHead (.obj fields) ++ s ++ cardSeg8 ∧
      tagOpeners div.innerHTML =
        tagOpeners (cardHead (.obj fields)) + tagOpeners s + tagOpeners cardSeg8) ∧
    (isMessage (.obj fields) = true →
      ∀ index : Nat, ∃ div, createMessageElement (.obj fields) index = .ok div) ∧
    (∀ other : List (String × JVal),
      (∀ key : String, key ≠ "content" → other.lookup key = fields.lookup key) →
      cardHead (.obj other) = cardHead (.obj fields)) := by
  have hc := contentOf_str fields s h
  have ht : textOf (contentOf (.obj fields)) = s := by
    rw [hc]; simp [textOf, jsToString]
  refine ⟨?_, ?_, ?_⟩
  · intro index div hdiv
    obtain ⟨_, hcard⟩ := createMessageElement_inv _ index div hdiv
    have e : div.innerHTML = cardHead (.obj fields) ++ s ++ cardSeg8 := by
      rw [hcard]; simp [messageCard, cardMarkup, ht]
    refine ⟨e, ?_⟩
    rw [e]
    simp [tagOpeners_append]
  · intro hm index
    exact ⟨_, createMessageElement_ok _ index hm⟩
  · intro other ho
    exact cardHead_congr fields other ho

/-- A WhatsApp message whose content has a `<`. -/
theorem cardMarkup_content_verbatim_witness :
    ∃ div,
      createMessageElement (.obj [("platform", .str "WhatsApp"), ("content", .str "a < b")]) 0
        = .ok div ∧
      div.innerHTML =
        cardHead (.obj [("platform", .str "WhatsApp"), ("content", .str "a < b")]) ++ "a < b" ++
          cardSeg8 :=
  ⟨messageCard (.obj [("platform", .str "WhatsApp"), ("content", .str "a < b")]) 0, by rfl,
    ((cardMarkup_content_verbatim [("platform", .str "WhatsApp"), ("content", .str "a < b")]
      "a < b" (by simp [List.lookup])).1 0 _ (by rfl)).1⟩

/-- C7 fails on the code: a content that is a tag enters the markup as a tag.
The card built for a message with content `<img src=x onerror=alert(1)>` has
the same head and tail as the card built for a message with content `hola`,
the content stands between them unescaped, and the markup has one `<` more. -/
theorem content_not_escaped :
    createMessageElement (.obj [("content", .str "<img src=x onerror=alert(1)>")]) 0 =
      .ok { className := "message-item", animationDelayIndex := 0,
            innerHTML := cardHead (.obj []) ++ "<img src=x onerror=alert(1)>" ++ cardSeg8 } ∧
    createMessageElement (.obj [("content", .str "hola")]) 0 =
      .ok { className := "message-item", animationDelayIndex := 0,
            innerHTML := cardHead (.obj []) ++ "hola" ++ cardSeg8 } ∧
    cardMarkup (.obj [("content", .str "<img src=x onerror=alert(1)>")]) =
      cardHead (.obj []) ++ "<img src=x onerror=alert(1)>" ++ cardSeg8 ∧
    cardMarkup (.obj [("content", .str "hola")]) = cardHead (.obj []) ++ "hola" ++ cardSeg8 ∧
    tagOpeners (cardMarkup (.obj [("content", .str "<img src=x onerror=alert(1)>")])) =
      tagOpeners (cardMarkup (.obj [("content", .str "hola")])) + 1 := by
  have e1 : cardMarkup (.obj [("content", .str "<img src=x onerror=alert(1)>")]) =
      cardHead (.obj []) ++ "<img src=x onerror=alert(1)>" ++ cardSeg8 := by
    rw [← cardHead_congr [] [("content", .str "<img src=x onerror=alert(1)>")]
      (by intro key hk; simp [List.lookup, beq_false_of_ne hk])]
    simp [cardMarkup, contentOf_str _ "<img src=x onerror=alert(1)>", List.lookup, textOf,
      jsToString]
  have e2 : cardMarkup (.obj [("content", .str "hola")]) =
      cardHead (.obj []) ++ "hola" ++ cardSeg8 := by
    rw [← cardHead_congr [] [("content", .str "hola")]
      (by intro key hk; simp [List.lookup, beq_false_of_ne hk])]
    simp [cardMarkup, contentOf_str _ "hola", List.lookup, textOf, jsToString]
  refine ⟨?_, ?_, e1, e2, ?_⟩
  · rw [createMessageElement_ok _ 0 (isMessage_content _), messageCard, e1]
  · rw [createMessageElement_ok _ 0 (isMessage_content _), messageCard, e2]
  · rw [e1, e2]
    simp only [tagOpeners_append]
    have a1 : tagOpeners "<img src=x onerror=alert(1)>" = 1 := by decide
    have a2 : tagOpeners "hola" = 0 := by decide
    omega

/-! ## Rendering the message list -/

theorem appendCards_ok (items : List JVal) (h : ∀ m ∈ items, isMessage m = true) (index : Nat)
    (box : Box) :
    appendCards items index box =
      ({ box with children := box.children ++
          (items.enumFrom index).map (fun p => messageCard p.2 p.1) }, none) := by
  induction items generalizing index box with
  | nil => simp [appendCards]
  | cons m rest ih =>
    have hm : isMessage m = true := h m (List.mem_cons_self _ _)
    have hrest : ∀ x ∈ rest, isMessage x = true := fun x hx => h x (List.mem_cons_of_mem _ hx)
    simp [appendCards, createMessageElement_ok m index hm, ih hrest, Box.appendChild,
      List.enumFrom_cons]

theorem appendCards_mapIdx (items : List JVal) (h : ∀ m ∈ items, isMessage m = true) (box : Box) :
    appendCards items 0 box =
      ({ box with children := box.children ++
          items.mapIdx (fun index m => messageCard m index) }, none) := by
  rw [appendCards_ok items h, List.mapIdx_eq_enum_map, List.enum]
  rfl

/-- The page after `loadMessages` on an empty array: placeholder, no card, no
request for the counters. -/
theorem loadMessages_empty (w : World) :
    (loadMessages (.json (.arr [])) w).world =
      { w.get "/api/messages" with box := w.box.setInnerHTML emptyStateMarkup } := by
  rfl

/-- The page after `loadMessages` on a non-empty array of messages. -/
theorem loadMessages_nonempty (w : World) (M : List JVal) (hne : M ≠ [])
    (hmsg : ∀ m ∈ M, isMessage m = true) :
    (loadMessages (.json (.arr M)) w).world =
      loadStatsStart { w.get "/api/messages" with
        box := { innerHTML := ""
                 children := (M.drop (M.length - 50)).mapIdx (fun index m => messageCard m index)
                 scrolledToEnd := true } } := by
  have hlen : (M.length : Int) ≠ 0 := by
    cases M with
    | nil => exact absurd rfl hne
    | cons a l => simp; omega
  have hwin : ∀ m ∈ M.drop (M.length - 50), isMessage m = true :=
    fun m hm => hmsg m (List.mem_of_mem_drop hm)
  simp [loadMessages, loadMessagesTry, lengthOf, strictEqZero, hlen, sliceLast50, forEachCard,
    appendCards_mapIdx _ hwin, Box.setInnerHTML, World.get]

/-- An entry whose content is an object with a property `toString` of its own
stops the rendering: of the three entries only the first gets a card, the
counters are not requested and the `TypeError` is logged. -/
theorem loadMessages_unconvertible_entry :
    (loadMessages (.json (.arr [.obj [("content", .str "ok")],
        .obj [("content", .obj [("toString", .num 1)])],
        .obj [("content", .str "after")]])) World.initial).world.box.children =
      [messageCard (.obj [("content", .str "ok")]) 0] ∧
    (loadMessages (.json (.arr [.obj [("content", .str "ok")],
        .obj [("content", .obj [("toString", .num 1)])],
        .obj [("content", .str "after")]])) World.initial).world.requests =
      [{ method := "GET", url := "/api/messages", body := none }] ∧
    (loadMessages (.json (.arr [.obj [("content", .str "ok")],
        .obj [("content", .obj [("toString", .num 1)])],
        .obj [("content", .str "after")]])) World.initial).world.errors =
      [("Error cargando mensajes:", .typeError)] := by
  refine ⟨by rfl, by rfl, by rfl⟩

theorem window_start (n : Nat) : n - min n 50 = n - 50 := by
  simp only [Nat.min_def]; split <;> omega

/-- C1: after `loadMessages` renders a non-empty list `M` of `N` messages, the
container holds exactly the cards of the last `min N 50` entries of `M`, in the
order of `M` (the card at position `k` is the one `createMessageElement` builds
from entry `N - min N 50 + k` with index `k`), whatever it held before;
rendering `M` again leaves the same content. -/
theorem loadMessages_renders_window (w : World) (M : List JVal) (hne : M ≠ [])
    (hmsg : ∀ m ∈ M, isMessage m = true) :
    (loadMessages (.json (.arr M)) w).world.box =
      { innerHTML := ""
        children := (M.drop (M.length - min M.length 50)).mapIdx
          (fun index m => messageCard m index)
        scrolledToEnd := true } ∧
    (loadMessages (.json (.arr M)) w).world.box.children.length = min M.length 50 ∧
    (∀ k : Nat, k < min M.length 50 →
      (loadMessages (.json (.arr M)) w).world.box.children[k]? =
        (M[M.length - min M.length 50 + k]?).map (fun m => messageCard m k)) ∧
    (∀ k : Nat, k < min M.length 50 →
      ((loadMessages (.json (.arr M)) w).world.box.children[k]?).map Except.ok =
        (M[M.length - min M.length 50 + k]?).map (fun m => createMessageElement m k)) ∧
    (loadMessages (.json (.arr M)) (loadMessages (.json (.arr M)) w).world).world.box =
      (loadMessages (.json (.arr M)) w).world.box := by
  have key : ∀ v : World, (loadMessages (.json (.arr M)) v).world.box =
      { innerHTML := ""
        children := (M.drop (M.length - min M.length 50)).mapIdx
          (fun index m => messageCard m index)
        scrolledToEnd := true } := by
    intro v
    rw [loadMessages_nonempty v M hne hmsg, window_start]
    rfl
  refine ⟨key w, ?_, ?_, ?_, ?_⟩
  · rw [key w]
    simp only [List.length_mapIdx, List.length_drop, Nat.min_def]
    split <;> omega
  · intro k _
    rw [key w]
    simp only [List.getElem?_mapIdx, List.getElem?_drop]
  · intro k _
    rw [key w]
    simp only [List.getElem?_mapIdx, List.getElem?_drop]
    cases hk : M[M.length - min M.length 50 + k]? with
    | none => rfl
    | some m =>
      have hm : isMessage m = true := hmsg m (List.getElem?_mem hk)
      simp [createMessageElement_ok m k hm]
  · rw [key, key]

/-- Sixty messages numbered from 1, oldest first. -/
theorem loadMessages_renders_window_witness :
    (loadMessages (.json (.arr ((List.range 60).map
        (fun i => JVal.obj [("content", .str (toString (i + 1)))])))) World.initial).world.box.children
      = (List.range 50).map (fun k => messageCard (.obj [("content", .str (toString (k + 11)))]) k) :=
  (congrArg Box.children
    (loadMessages_renders_window World.initial
      ((List.range 60).map (fun i => JVal.obj [("content", .str (toString (i + 1)))]))
      (by simp) (by
        intro m hm
        obtain ⟨i, _, rfl⟩ := List.mem_map.1 hm
        exact isMessage_content _)).1).trans (by rfl)

/-- C2: the number of cards in the container after `loadMessages` renders a
list of `N` messages is `min N 50`; for the empty list the container holds the
empty-state placeholder and no card. -/
theorem loadMessages_card_count (w : World) (M : List JVal)
    (hmsg : ∀ m ∈ M, isMessage m = true) :
    (loadMessages (.json (.arr M)) w).world.box.children.length = min M.length 50 ∧
    (M = [] →
      (loadMessages (.json (.arr M)) w).world.box.innerHTML = emptyStateMarkup ∧
      (loadMessages (.json (.arr M)) w).world.box.children = []) := by
  cases M with
  | nil =>
    rw [loadMessages_empty]
    simp [Box.setInnerHTML]
  | cons a l =>
    rw [loadMessages_nonempty w (a :: l) (by simp) hmsg]
    simp only [loadStatsStart, World.get, List.length_mapIdx, List.length_drop, Nat.min_def]
    refine ⟨?_, fun h => by simp at h⟩
    split <;> omega

/-- Three messages give three cards; no message gives the placeholder. -/
theorem loadMessages_card_count_witness :
    (loadMessages (.json (.arr [.obj [], .obj [], .obj []])) World.initial).world.box.children.length
      = 3 ∧
    (loadMessages (.json (.arr [])) World.initial).world.box.innerHTML = emptyStateMarkup ∧
    (loadMessages (.json (.arr [])) World.initial).world.box.children = [] :=
  ⟨(loadMessages_card_count World.initial [.obj [], .obj [], .obj []]
      (by intro m hm; simp at hm; subst hm; exact isMessage_empty)).1,
    (loadMessages_card_count World.initial [] (by simp)).2 rfl⟩

/-! ## Failed refreshes -/

/-- The promise of `loadMessages` is never rejected. -/
theorem loadMessages_never_throws (response : Fetched JVal) (w : World) :
    (loadMessages response w).thrown = none := by
  unfold loadMessages
  split <;> rfl

/-- C5, as the code has it: `loadMessages` never throws to its caller, whatever
the outcome of the request; and when the request does not complete, or the body
is not JSON, or the body is the JSON value `null`, the container is left as it
was and the error is logged. -/
theorem loadMessages_failure_keeps_box (w : World) (response : Fetched JVal) :
    (loadMessages response w).thrown = none ∧
    (response = .networkError ∨ response = .invalidJson ∨ response = .json .null →
      (loadMessages response w).world.box = w.box ∧
      (loadMessages response w).world.errors.length = w.errors.length + 1) := by
  refine ⟨loadMessages_never_throws response w, ?_⟩
  rintro (h | h | h) <;> subst h <;>
    simp [loadMessages, loadMessagesTry, lengthOf, World.get, World.logError]

/-- A container showing one card, and a request that does not complete. -/
theorem loadMessages_failure_keeps_box_witness :
    (loadMessages .networkError
      { World.initial with box :=
        { innerHTML := "", children := [messageCard (.obj []) 0], scrolledToEnd := true } }).world.box
      = { innerHTML := "", children := [messageCard (.obj []) 0], scrolledToEnd := true } :=
  ((loadMessages_failure_keeps_box
      { World.initial with box :=
        { innerHTML := "", children := [messageCard (.obj []) 0], scrolledToEnd := true } }
      .networkError).2 (Or.inl rfl)).1

/-- C5 fails on the code: a body that is JSON but not an array, here the object
`{"error": "unavailable"}`, makes the refresh fail after the container has been
emptied: a container showing one card shows nothing after the call. -/
theorem loadMessages_object_body_clears_box :
    (loadMessages (.json (.obj [("error", .str "unavailable")]))
      { World.initial with box :=
        { innerHTML := "", children := [messageCard (.obj []) 0], scrolledToEnd := true } }).world.box
      = { innerHTML := "", children := [], scrolledToEnd := true } ∧
    (loadMessages (.json (.obj [("error", .str "unavailable")]))
      { World.initial with box :=
        { innerHTML := "", children := [messageCard (.obj []) 0], scrolledToEnd := true } }).world.errors
      = [("Error cargando mensajes:", .typeError)] ∧
    (loadMessages (.json (.obj [("error", .str "unavailable")]))
      { World.initial with box :=
        { innerHTML := "", children := [messageCard (.obj []) 0], scrolledToEnd := true } }).world.box
      ≠ { innerHTML := "", children := [messageCard (.obj []) 0], scrolledToEnd := true } := by
  refine ⟨by rfl, by rfl, ?_⟩
  intro h
  have := congrArg (fun b => b.children.length) h
  revert this
  decide

/-! ## Requests for the counters -/

/-- C10 at the empty list: `loadMessages` returns at line 26, before the call
of `loadStats` at line 44: the only request is the one for the messages, and
no call of `loadStats` is waiting. -/
theorem loadMessages_empty_no_stats (w : World) :
    (loadMessages (.json (.arr [])) w).world.requests =
      w.requests ++ [{ method := "GET", url := "/api/messages", body := none }] ∧
    (loadMessages (.json (.arr [])) w).world.pendingStats = w.pendingStats ∧
    (loadMessages (.json (.arr [])) w).thrown = none := by
  refine ⟨by rfl, by rfl, by rfl⟩

/-- The other path: on a non-empty list of messages `loadMessages` issues one
request for the counters, after the one for the messages. -/
theorem loadMessages_nonempty_one_stats (w : World) (M : List JVal) (hne : M ≠ [])
    (hmsg : ∀ m ∈ M, isMessage m = true) :
    (loadMessages (.json (.arr M)) w).world.requests =
      w.requests ++ [{ method := "GET", url := "/api/messages", body := none },
        { method := "GET", url := "/api/stats", body := none }] ∧
    (loadMessages (.json (.arr M)) w).world.pendingStats = w.pendingStats + 1 := by
  rw [loadMessages_nonempty w M hne hmsg]
  simp [loadStatsStart, World.get]

/-- The four values of the response go to `animateNumber`, each for its counter. -/
theorem loadStatsResume_json (stats : Stats) (w : World) (h : w.pendingStats ≠ 0) :
    loadStatsResume (.json stats) w =
      animateNumber "stat-facebook" stats.facebook
        (animateNumber "stat-instagram" stats.instagram
          (animateNumber "stat-whatsapp" stats.whatsapp
            (animateNumber "stat-total" stats.total
              { w with pendingStats := w.pendingStats - 1 }))) := by
  simp [loadStatsResume, h]

/-! ## Manual send -/

/-- Trimming a text made of white space leaves the empty text. -/
theorem jsTrim_blank (s : String) (h : ∀ c ∈ s.toList, isJsWhitespace c = true) :
    jsTrim s = "" := by
  have h1 : s.toList.dropWhile isJsWhitespace = [] := by
    rw [List.dropWhile_eq_nil_iff]
    exact h
  unfold jsTrim
  rw [h1]
  rfl

/-- C6: when the text of the input is empty or made of white space only,
`sendManualMessage` issues no request, shows the warning, and leaves the
container and the text of the input as they were. -/
theorem sendManualMessage_blank (sent : Option Bool) (response : Fetched JVal) (w : World)
    (h : ∀ c ∈ w.messageInput.toList, isJsWhitespace c = true) :
    (sendManualMessage sent response w).world.requests = w.requests ∧
    (sendManualMessage sent response w).world.pendingStats = w.pendingStats ∧
    (sendManualMessage sent response w).world.alerts =
      w.alerts ++ ["⚠️ Por favor escribe un mensaje"] ∧
    (sendManualMessage sent response w).world.box = w.box ∧
    (sendManualMessage sent response w).world.messageInput = w.messageInput ∧
    (sendManualMessage sent response w).thrown = none := by
  simp [sendManualMessage, jsTrim_blank w.messageInput h, World.alert]

/-- An input of a space, a tab, a line feed and a space. -/
theorem sendManualMessage_blank_witness :
    (sendManualMessage (some true) (.json (.arr [.obj []]))
      { World.initial with messageInput := " \t\n " }).world.requests = [] ∧
    (sendManualMessage (some true) (.json (.arr [.obj []]))
      { World.initial with messageInput := " \t\n " }).world.messageInput = " \t\n " :=
  ⟨(sendManualMessage_blank (some true) (.json (.arr [.obj []]))
      { World.initial with messageInput := " \t\n " } (by decide)).1,
    (sendManualMessage_blank (some true) (.json (.arr [.obj []]))
      { World.initial with messageInput := " \t\n " } (by decide)).2.2.2.2.1⟩

/-! ## Counters at rest -/

/-- C9: when the value displayed by the element (read as 0 when the text is
not a number) is the target, `animateNumber` leaves the page as it is: no timer
is created, so none ticks, and the text of the element is not written. -/
theorem animateNumber_noop (w : World) (elementId : String) (targetValue : Int)
    (h : currentValueOf (w.text elementId) = targetValue) :
    animateNumber elementId targetValue w = w ∧
    (animateNumber elementId targetValue w).intervals = w.intervals ∧
    (animateNumber elementId targetValue w).nextTimerId = w.nextTimerId ∧
    (animateNumber elementId targetValue w).text = w.text ∧
    (∀ rnd id, tick rnd id (animateNumber elementId targetValue w) = tick rnd id w) := by
  have e : animateNumber elementId targetValue w = w := by
    simp [animateNumber, h]
  simp [e]

/-- A counter showing 0, and a counter showing a text that is not a number,
both asked to show 0. -/
theorem animateNumber_noop_witness :
    animateNumber "stat-total" 0 World.initial = World.initial ∧
    animateNumber "stat-total" 0 { World.initial with text := fun _ => "sin datos" } =
      { World.initial with text := fun _ => "sin datos" } :=
  ⟨(animateNumber_noop World.initial "stat-total" 0 (by decide)).1,
    (animateNumber_noop { World.initial with text := fun _ => "sin datos" } "stat-total" 0
      (by decide)).1⟩

/-! ## Reading back a number that was written -/

theorem digitChar_toNat (d : Nat) (h : d < 10) : (Nat.digitChar d).toNat = 48 + d := by
  interval_cases d <;> rfl

theorem digitsValue_append (radix : Nat) (ds : List Nat) (d : Nat) :
    digitsValue radix (ds ++ [d]) = digitsValue radix ds * radix + d := by
  simp [digitsValue, List.foldl_append]

theorem toDigitsCore_spec (fuel : Nat) : ∀ (n : Nat) (ds : List Char), n < fuel →
    ∃ p, Nat.toDigitsCore 10 fuel n ds = p ++ ds ∧ p ≠ [] ∧ IsDigits p ∧
      digitsValue 10 (p.map (fun c => c.toNat - 48)) = n := by
  induction fuel with
  | zero => intro n ds h; omega
  | succ fuel ih =>
    intro n ds h
    have hd : n % 10 < 10 := Nat.mod_lt _ (by decide)
    have hc := digitChar_toNat (n % 10) hd
    by_cases h0 : n / 10 = 0
    · refine ⟨[Nat.digitChar (n % 10)], ?_, by simp, ?_, ?_⟩
      · simp [Nat.toDigitsCore, h0]
      · intro c hcm
        simp at hcm
        subst hcm
        omega
      · simp [digitsValue, hc]
        omega
    · obtain ⟨p, hp, hne, hdig, hval⟩ := ih (n / 10) (Nat.digitChar (n % 10) :: ds) (by omega)
      refine ⟨p ++ [Nat.digitChar (n % 10)], ?_, by simp, ?_, ?_⟩
      · simp [Nat.toDigitsCore, h0, hp]
      · intro c hcm
        rcases List.mem_append.1 hcm with hcm | hcm
        · exact hdig c hcm
        · simp at hcm
          subst hcm
          omega
      · rw [List.map_append, List.map_singleton, digitsValue_append, hval, hc]
        omega

theorem repr_spec (n : Nat) : ∃ p, toString n = String.mk p ∧ p ≠ [] ∧ IsDigits p ∧
    digitsValue 10 (p.map (fun c => c.toNat - 48)) = n := by
  obtain ⟨p, hp, hne, hdig, hval⟩ := toDigitsCore_spec (n + 1) n [] (by omega)
  refine ⟨p, ?_, hne, hdig, hval⟩
  show Nat.repr n = _
  simp [Nat.repr, Nat.toDigits, hp, List.asString]

theorem leadingDigits_digits (p : List Char) (h : IsDigits p) :
    leadingDigits 10 p = p.map (fun c => c.toNat - 48) := by
  induction p with
  | nil => rfl
  | cons c cs ih =>
    have hc := h c (List.mem_cons_self _ _)
    have hcs : IsDigits cs := fun x hx => h x (List.mem_cons_of_mem _ hx)
    have hv : digitValue 10 c = some (c.toNat - 48) := by
      simp only [digitValue, hc, and_self, if_true]
      have : c.toNat - 48 < 10 := by omega
      simp [this]
    simp [leadingDigits, hv, ih hcs]

theorem parseInt_digits (p : List Char) (hne : p ≠ []) (h : IsDigits p) :
    parseInt (String.mk p) = some (digitsValue 10 (p.map (fun c => c.toNat - 48)) : Int) := by
  cases p with
  | nil => exact absurd rfl hne
  | cons c cs =>
    have hc := h c (List.mem_cons_self _ _)
    have hws : isJsWhitespace c = false := by
      simp [isJsWhitespace]
      omega
    have hm : c ≠ '-' := by intro e; subst e; simp at hc
    have hpl : c ≠ '+' := by intro e; subst e; simp at hc
    have hbase : (match c :: cs with
        | a :: d :: rest => if a = '0' ∧ (d = 'x' ∨ d = 'X') then ((16 : Nat), rest) else (10, c :: cs)
        | _ => (10, c :: cs)) = (10, c :: cs) := by
      cases cs with
      | nil => rfl
      | cons d rest =>
        have hd := h d (List.mem_cons_of_mem _ (List.mem_cons_self _ _))
        have hx : d ≠ 'x' := by intro e; subst e; simp at hd
        have hX : d ≠ 'X' := by intro e; subst e; simp at hd
        simp [hx, hX]
    have hl := leadingDigits_digits (c :: cs) h
    simp only [parseInt, String.toList, List.dropWhile, hws, hm, hpl, if_false, hbase, hl]
    simp

theorem parseInt_minus_digits (p : List Char) (hne : p ≠ []) (h : IsDigits p) :
    parseInt (String.mk ('-' :: p)) =
      some (-(digitsValue 10 (p.map (fun c => c.toNat - 48)) : Int)) := by
  cases p with
  | nil => exact absurd rfl hne
  | cons c cs =>
    have hbase : (match c :: cs with
        | a :: d :: rest => if a = '0' ∧ (d = 'x' ∨ d = 'X') then ((16 : Nat), rest) else (10, c :: cs)
        | _ => (10, c :: cs)) = (10, c :: cs) := by
      cases cs with
      | nil => rfl
      | cons d rest =>
        have hd := h d (List.mem_cons_of_mem _ (List.mem_cons_self _ _))
        have hx : d ≠ 'x' := by intro e; subst e; simp at hd
        have hX : d ≠ 'X' := by intro e; subst e; simp at hd
        simp [hx, hX]
    have hl := leadingDigits_digits (c :: cs) h
    have hws : isJsWhitespace '-' = false := by decide
    simp only [parseInt, String.toList, List.dropWhile, hws, if_true, hbase, hl]
    simp

/-- The value read by `parseInt(text) || 0` from the text of an integer is
that integer. -/
theorem currentValueOf_toString (n : Int) : currentValueOf (toString n) = n := by
  cases n with
  | ofNat m =>
    obtain ⟨p, hp, hne, hdig, hval⟩ := repr_spec m
    have e : toString (Int.ofNat m) = String.mk p := hp
    rw [e]
    unfold currentValueOf
    rw [parseInt_digits p hne hdig, hval]
    by_cases h0 : m = 0 <;> simp [h0]
  | negSucc m =>
    obtain ⟨p, hp, hne, hdig, hval⟩ := repr_spec (m + 1)
    have e : toString (Int.negSucc m) = String.mk ('-' :: p) := by
      show "-" ++ toString (m + 1) = _
      rw [hp]
      rfl
    rw [e]
    unfold currentValueOf
    rw [parseInt_minus_digits p hne hdig, hval]
    have : (-((m + 1 : Nat) : Int)) = Int.negSucc m := by
      simp [Int.negSucc_eq]
    rw [this]
    simp

/-! ## One animation, run to its end -/

theorem setText_other (text : String → String) (a b value : String) (h : a ≠ b) :
    setText text a value b = text b := by
  simp [setText, Ne.symm h]

theorem setText_same (text : String → String) (a value : String) :
    setText text a value a = value := by
  simp [setText]

theorem tick_none (rnd : Int → Int → Nat → Int) (id : Nat) (w : World)
    (h : w.intervals.find? (fun t => t.id == id) = none) : tick rnd id w = w := by
  simp [tick, h]

theorem tick_last (rnd : Int → Int → Nat → Int) (id : Nat) (w : World) (t : Interval)
    (h : w.intervals.find? (fun t => t.id == id) = some t) (hs : steps ≤ t.step + 1) :
    tick rnd id w =
      { w with
        text := setText w.text t.elementId (toString t.targetValue)
        intervals := w.intervals.filter (fun u => u.id != id) } := by
  simp [tick, h, hs]

theorem tick_step (rnd : Int → Int → Nat → Int) (id : Nat) (w : World) (t : Interval)
    (h : w.intervals.find? (fun t => t.id == id) = some t) (hs : t.step + 1 < steps) :
    tick rnd id w =
      { w with
        text := setText w.text t.elementId (toString (rnd t.currentValue t.targetValue (t.step + 1)))
        intervals := w.intervals.map
          (fun u => if u.id == id then { u with step := t.step + 1 } else u) } := by
  have : ¬ (steps ≤ t.step + 1) := by omega
  simp [tick, h, this]

theorem animateNumber_same (x : String) (target : Int) (w : World)
    (h : currentValueOf (w.text x) = target) : animateNumber x target w = w := by
  simp [animateNumber, h]

theorem animateNumber_start (x : String) (target : Int) (w : World)
    (h : currentValueOf (w.text x) ≠ target) :
    animateNumber x target w =
      { w with
        intervals := w.intervals ++
          [{ id := w.nextTimerId, elementId := x, targetValue := target,
             currentValue := currentValueOf (w.text x), step := 0 }]
        nextTimerId := w.nextTimerId + 1 } := by
  simp [animateNumber, h]

theorem settled_tick (rnd : Int → Int → Nat → Int) (el shown : String) (id : Nat) (w : World)
    (h : Settled el shown w) : Settled el shown (tick rnd id w) := by
  obtain ⟨htext, hnone⟩ := h
  cases hf : w.intervals.find? (fun t => t.id == id) with
  | none => rw [tick_none rnd id w hf]; exact ⟨htext, hnone⟩
  | some t =>
    have hmem : t ∈ w.intervals := List.mem_of_find?_eq_some hf
    have hel : t.elementId ≠ el := hnone t hmem
    by_cases hs : steps ≤ t.step + 1
    · rw [tick_last rnd id w t hf hs]
      refine ⟨?_, ?_⟩
      · show setText w.text t.elementId _ el = shown
        rw [setText_other _ _ _ _ hel]; exact htext
      · intro u hu
        exact hnone u (List.mem_filter.1 hu).1
    · rw [tick_step rnd id w t hf (by omega)]
      refine ⟨?_, ?_⟩
      · show setText w.text t.elementId _ el = shown
        rw [setText_other _ _ _ _ hel]; exact htext
      · intro u hu
        obtain ⟨v, hv, rfl⟩ := List.mem_map.1 hu
        have := hnone v hv
        split <;> simpa using this

theorem settled_apply (rnd : Int → Int → Nat → Int) (el shown : String) (e : Event) (w : World)
    (h : Settled el shown w) (ha : e.Avoids el) : Settled el shown (e.apply rnd w) := by
  cases e with
  | tick id => exact settled_tick rnd el shown id w h
  | animate x target =>
    have hx : x ≠ el := ha
    obtain ⟨htext, hnone⟩ := h
    show Settled el shown (animateNumber x target w)
    by_cases hc : currentValueOf (w.text x) = target
    · rw [animateNumber_same x target w hc]; exact ⟨htext, hnone⟩
    · rw [animateNumber_start x target w hc]
      refine ⟨htext, ?_⟩
      intro u hu
      rcases List.mem_append.1 hu with hu | hu
      · exact hnone u hu
      · simp at hu; subst hu; exact hx

theorem settled_run (rnd : Int → Int → Nat → Int) (el shown : String) (events : List Event) :
    ∀ w : World, Settled el shown w → (∀ e ∈ events, e.Avoids el) →
      Settled el shown (run rnd events w) := by
  induction events with
  | nil => intro w h _; exact h
  | cons e rest ih =>
    intro w h ha
    show Settled el shown (run rnd rest (e.apply rnd w))
    exact ih _ (settled_apply rnd el shown e w h (ha e (List.mem_cons_self _ _)))
      (fun x hx => ha x (List.mem_cons_of_mem _ hx))

theorem inflight_other (rnd : Int → Int → Nat → Int) (el : String) (T : Int) (id k : Nat)
    (e : Event) (w : World) (h : InFlight el T id k w) (hne : e ≠ .tick id) (ha : e.Avoids el) :
    InFlight el T id k (e.apply rnd w) ∧ (e.apply rnd w).text el = w.text el := by
  obtain ⟨hid, hk, hex, hown, honly⟩ := h
  cases e with
  | tick j =>
    have hj : j ≠ id := fun c => hne (by rw [c])
    show InFlight el T id k (tick rnd j w) ∧ (tick rnd j w).text el = w.text el
    cases hf : w.intervals.find? (fun t => t.id == j) with
    | none => rw [tick_none rnd j w hf]; exact ⟨⟨hid, hk, hex, hown, honly⟩, rfl⟩
    | some t =>
      have hmem : t ∈ w.intervals := List.mem_of_find?_eq_some hf
      have htj : t.id = j := by simpa using List.find?_some hf
      have hel : t.elementId ≠ el := fun c => hj (htj ▸ honly t hmem c)
      by_cases hs : steps ≤ t.step + 1
      · rw [tick_last rnd j w t hf hs]
        refine ⟨⟨hid, hk, ?_, ?_, ?_⟩, setText_other _ _ _ _ hel⟩
        · obtain ⟨u, hu, hui⟩ := hex
          exact ⟨u, List.mem_filter.2 ⟨hu, by simp [hui]; exact fun c => hj c.symm⟩, hui⟩
        · intro u hu; exact hown u (List.mem_filter.1 hu).1
        · intro u hu; exact honly u (List.mem_filter.1 hu).1
      · rw [tick_step rnd j w t hf (by omega)]
        refine ⟨⟨hid, hk, ?_, ?_, ?_⟩, setText_other _ _ _ _ hel⟩
        · obtain ⟨u, hu, hui⟩ := hex
          refine ⟨u, List.mem_map.2 ⟨u, hu, ?_⟩, hui⟩
          have : ¬ (u.id = j) := fun c => hj (c ▸ hui)
          simp [this]
        · intro u hu hui
          obtain ⟨v, hv, rfl⟩ := List.mem_map.1 hu
          by_cases hvj : v.id = j
          · simp [hvj] at hui; exact absurd hui hj
          · simp [hvj] at hui ⊢; exact hown v hv hui
        · intro u hu huel
          obtain ⟨v, hv, rfl⟩ := List.mem_map.1 hu
          by_cases hvj : v.id = j
          · simp [hvj] at huel ⊢; exact hvj ▸ honly v hv huel
          · simp [hvj] at huel ⊢; exact honly v hv huel
  | animate x target =>
    have hx : x ≠ el := ha
    show InFlight el T id k (animateNumber x target w) ∧ (animateNumber x target w).text el = w.text el
    by_cases hc : currentValueOf (w.text x) = target
    · rw [animateNumber_same x target w hc]; exact ⟨⟨hid, hk, hex, hown, honly⟩, rfl⟩
    · rw [animateNumber_start x target w hc]
      refine ⟨⟨Nat.lt_succ_of_lt hid, hk, ?_, ?_, ?_⟩, rfl⟩
      · obtain ⟨u, hu, hui⟩ := hex
        exact ⟨u, List.mem_append_left _ hu, hui⟩
      · intro u hu hui
        rcases List.mem_append.1 hu with hu | hu
        · exact hown u hu hui
        · simp at hu; subst hu; simp at hui; omega
      · intro u hu huel
        rcases List.mem_append.1 hu with hu | hu
        · exact honly u hu huel
        · simp at hu; subst hu; exact absurd huel hx

/-! ### Timer ids are fresh on every page the script can reach -/

theorem fresh_apply (rnd : Int → Int → Nat → Int) (e : Event) (w : World)
    (h : ∀ t ∈ w.intervals, t.id < w.nextTimerId) :
    ∀ t ∈ (e.apply rnd w).intervals, t.id < (e.apply rnd w).nextTimerId := by
  cases e with
  | tick j =>
    show ∀ t ∈ (tick rnd j w).intervals, t.id < (tick rnd j w).nextTimerId
    cases hf : w.intervals.find? (fun t => t.id == j) with
    | none => rw [tick_none rnd j w hf]; exact h
    | some t =>
      by_cases hs : steps ≤ t.step + 1
      · rw [tick_last rnd j w t hf hs]
        intro u hu
        exact h u (List.mem_filter.1 hu).1
      · rw [tick_step rnd j w t hf (by omega)]
        intro u hu
        obtain ⟨v, hv, rfl⟩ := List.mem_map.1 hu
        have := h v hv
        split <;> simpa using this
  | animate x target =>
    show ∀ t ∈ (animateNumber x target w).intervals, t.id < (animateNumber x target w).nextTimerId
    by_cases hc : currentValueOf (w.text x) = target
    · rw [animateNumber_same x target w hc]; exact h
    · rw [animateNumber_start x target w hc]
      intro u hu
      rcases List.mem_append.1 hu with hu | hu
      · exact Nat.lt_succ_of_lt (h u hu)
      · simp at hu; subst hu; exact Nat.lt_succ_self _

theorem fresh_run (rnd : Int → Int → Nat → Int) (events : List Event) :
    ∀ w : World, (∀ t ∈ w.intervals, t.id < w.nextTimerId) →
      ∀ t ∈ (run rnd events w).intervals, t.id < (run rnd events w).nextTimerId := by
  induction events with
  | nil => intro w h; exact h
  | cons e rest ih => intro w h; exact ih _ (fresh_apply rnd e w h)

/-- A call of `animateNumber` leaves every live timer as it is: the timers
before the call are the first timers after it. -/
theorem animateNumber_keeps_timers (x : String) (target : Int) (w : World) :
    w.intervals <+: (animateNumber x target w).intervals := by
  by_cases hc : currentValueOf (w.text x) = target
  · rw [animateNumber_same x target w hc]
  · rw [animateNumber_start x target w hc]
    exact List.prefix_append _ _

theorem inflight_find (el : String) (T : Int) (id k : Nat) (w : World)
    (h : InFlight el T id k w) :
    ∃ t, w.intervals.find? (fun t => t.id == id) = some t ∧
      t.elementId = el ∧ t.targetValue = T ∧ t.step = k := by
  obtain ⟨_, _, hex, hown, _⟩ := h
  cases hf : w.intervals.find? (fun t => t.id == id) with
  | none =>
    obtain ⟨u, hu, hui⟩ := hex
    have := List.find?_eq_none.1 hf u hu
    simp [hui] at this
  | some t =>
    have hmem : t ∈ w.intervals := List.mem_of_find?_eq_some hf
    have hti : t.id = id := by simpa using List.find?_some hf
    exact ⟨t, rfl, hown t hmem hti⟩

theorem inflight_tick_step (rnd : Int → Int → Nat → Int) (el : String) (T : Int) (id k : Nat)
    (w : World) (h : InFlight el T id k w) (hk : k + 1 < steps) :
    InFlight el T id (k + 1) (tick rnd id w) := by
  obtain ⟨t, hf, hel, hT, hstep⟩ := inflight_find el T id k w h
  obtain ⟨hid, _, hex, hown, honly⟩ := h
  rw [tick_step rnd id w t hf (by omega)]
  refine ⟨hid, hk, ?_, ?_, ?_⟩
  · obtain ⟨u, hu, hui⟩ := hex
    exact ⟨{ u with step := t.step + 1 }, List.mem_map.2 ⟨u, hu, by simp [hui]⟩, hui⟩
  · intro u hu hui
    obtain ⟨v, hv, rfl⟩ := List.mem_map.1 hu
    by_cases hvj : v.id = id
    · have := hown v hv hvj
      simp [hvj, hstep]
      exact ⟨this.1, this.2.1⟩
    · simp [hvj] at hui
  · intro u hu huel
    obtain ⟨v, hv, rfl⟩ := List.mem_map.1 hu
    by_cases hvj : v.id = id
    · simp [hvj]
    · simp [hvj] at huel
      exact absurd (honly v hv huel) hvj

theorem inflight_tick_last (rnd : Int → Int → Nat → Int) (el : String) (T : Int) (id k : Nat)
    (w : World) (h : InFlight el T id k w) (hk : steps ≤ k + 1) :
    Settled el (toString T) (tick rnd id w) := by
  obtain ⟨t, hf, hel, hT, hstep⟩ := inflight_find el T id k w h
  obtain ⟨hid, _, hex, hown, honly⟩ := h
  rw [tick_last rnd id w t hf (by omega)]
  refine ⟨?_, ?_⟩
  · show setText w.text t.elementId (toString t.targetValue) el = toString T
    rw [hel, hT, setText_same]
  · intro u hu huel
    obtain ⟨hu1, hu2⟩ := List.mem_filter.1 hu
    have := honly u hu1 huel
    simp [this] at hu2

theorem inflight_run (rnd : Int → Int → Nat → Int) (el : String) (T : Int) (id : Nat)
    (events : List Event) :
    ∀ (k : Nat) (w : World), InFlight el T id k w → (∀ e ∈ events, e.Avoids el) →
      steps ≤ k + events.count (.tick id) →
      Settled el (toString T) (run rnd events w) := by
  induction events with
  | nil =>
    intro k w h _ hc
    have := h.2.1
    simp at hc
    omega
  | cons e rest ih =>
    intro k w h ha hc
    have harest : ∀ x ∈ rest, x.Avoids el := fun x hx => ha x (List.mem_cons_of_mem _ hx)
    show Settled el (toString T) (run rnd rest (e.apply rnd w))
    by_cases he : e = .tick id
    · subst he
      rw [List.count_cons_self] at hc
      by_cases hk : k + 1 < steps
      · exact ih (k + 1) _ (inflight_tick_step rnd el T id k w h hk) harest (by omega)
      · exact settled_run rnd el _ rest _
          (inflight_tick_last rnd el T id k w h (by omega)) harest
    · rw [List.count_cons_of_ne (fun c => he c.symm)] at hc
      exact ih k _ (inflight_other rnd el T id k e w h he (ha e (List.mem_cons_self _ _))).1
        harest hc

theorem inflight_start (el : String) (T : Int) (w : World)
    (hids : ∀ t ∈ w.intervals, t.id < w.nextTimerId)
    (hquiet : ∀ t ∈ w.intervals, t.elementId ≠ el)
    (hne : currentValueOf (w.text el) ≠ T) :
    InFlight el T w.nextTimerId 0 (animateNumber el T w) := by
  rw [animateNumber_start el T w hne]
  refine ⟨Nat.lt_succ_self _, by decide, ?_, ?_, ?_⟩
  · exact ⟨_, List.mem_append_right _ (List.mem_singleton_self _), rfl⟩
  · intro u hu hui
    rcases List.mem_append.1 hu with hu | hu
    · have := hids u hu; omega
    · simp at hu; subst hu; exact ⟨rfl, rfl, rfl⟩
  · intro u hu huel
    rcases List.mem_append.1 hu with hu | hu
    · exact absurd huel (hquiet u hu)
    · simp at hu; subst hu; rfl

/-- C3: an animation run to its end shows the target.  Take a page where no
live timer writes to the element, call `animateNumber(element, T)`, and let any
events follow (ticks of any timers, calls of `animateNumber` on other
elements) among which the timer of this call fires its 20 times: then the value
displayed by the element is exactly `T`, with text `T` when a timer was needed,
and no live timer writes to the element any more, whatever `Math.round`
returned on the way. -/
theorem animateNumber_settles (rnd : Int → Int → Nat → Int) (w : World) (elementId : String)
    (T : Int) (events : List Event)
    (hids : ∀ t ∈ w.intervals, t.id < w.nextTimerId)
    (hquiet : ∀ t ∈ w.intervals, t.elementId ≠ elementId)
    (hothers : ∀ e ∈ events, e.Avoids elementId)
    (hticks : currentValueOf (w.text elementId) ≠ T → steps ≤ events.count (.tick w.nextTimerId)) :
    currentValueOf ((run rnd events (animateNumber elementId T w)).text elementId) = T ∧
    (currentValueOf (w.text elementId) ≠ T →
      (run rnd events (animateNumber elementId T w)).text elementId = toString T) ∧
    (∀ t ∈ (run rnd events (animateNumber elementId T w)).intervals,
      t.elementId ≠ elementId) := by
  by_cases hne : currentValueOf (w.text elementId) = T
  · rw [animateNumber_same elementId T w hne]
    have hs := settled_run rnd elementId (w.text elementId) events w ⟨rfl, hquiet⟩ hothers
    refine ⟨by rw [hs.1]; exact hne, fun c => absurd hne c, hs.2⟩
  · have hs := inflight_run rnd elementId T w.nextTimerId events 0 _
      (inflight_start elementId T w hids hquiet hne) hothers (by have := hticks hne; omega)
    exact ⟨by rw [hs.1]; exact currentValueOf_toString T, fun _ => hs.1, hs.2⟩

/-- The page once the response `{total: 12, whatsapp: 5, instagram: 4,
facebook: 3}` has gone through the first three calls of `animateNumber`. -/
theorem loadStats_example :
    loadStats (.json ⟨12, 5, 4, 3⟩) World.initial =
      animateNumber "stat-facebook" 3
        (animateNumber "stat-instagram" 4
          (animateNumber "stat-whatsapp" 5
            (animateNumber "stat-total" 12
              { loadStatsStart World.initial with pendingStats := 0 }))) := by
  rfl

set_option maxRecDepth 8000 in
/-- The counters show 0 and the response `{total: 12, whatsapp: 5, instagram: 4,
facebook: 3}` arrives; the four timers then fire in turn, twenty times each.
The counters end at 12, 5, 4 and 3 and no timer is left. -/
theorem animateNumber_settles_witness :
    (run idealRound ((List.range 80).map (fun i => Event.tick (3 + i % 4)))
      (loadStats (.json ⟨12, 5, 4, 3⟩) World.initial)).text "stat-total" = "12" ∧
    (run idealRound ((List.range 80).map (fun i => Event.tick (3 + i % 4)))
      (loadStats (.json ⟨12, 5, 4, 3⟩) World.initial)).text "stat-whatsapp" = "5" ∧
    (run idealRound ((List.range 80).map (fun i => Event.tick (3 + i % 4)))
      (loadStats (.json ⟨12, 5, 4, 3⟩) World.initial)).text "stat-instagram" = "4" ∧
    (run idealRound ((List.range 80).map (fun i => Event.tick (3 + i % 4)))
      (loadStats (.json ⟨12, 5, 4, 3⟩) World.initial)).text "stat-facebook" = "3" ∧
    (run idealRound ((List.range 80).map (fun i => Event.tick (3 + i % 4)))
      (loadStats (.json ⟨12, 5, 4, 3⟩) World.initial)).intervals = [] := by
  refine ⟨by decide, by decide, by decide, ?_, by decide⟩
  rw [loadStats_example]
  exact (animateNumber_settles idealRound
    (animateNumber "stat-instagram" 4
      (animateNumber "stat-whatsapp" 5
        (animateNumber "stat-total" 12
          { loadStatsStart World.initial with pendingStats := 0 })))
    "stat-facebook" 3 ((List.range 80).map (fun i => Event.tick (3 + i % 4)))
    (by decide) (by decide) (by decide) (by intro _; decide)).2.1 (by decide)

/-! ## Two animations on one counter -/

/-- C4 on the code: a call of `animateNumber` does not stop the timer of an
earlier call on the same element.  From a counter showing 0:
* after `animateNumber(el, 20)`, one tick, `animateNumber(el, 7)` and one more
  tick of the first timer, two timers are live and the counter shows 2, a value
  written by the earlier animation after the new request;
* when the two timers then fire in turn, the 20th tick of the first one makes
  the counter show 20, the older target, while the newer animation is in flight;
* after `animateNumber(el, 20)`, five ticks (the counter shows 5) and
  `animateNumber(el, 5)`, which returns at line 143, the first timer runs to
  its end: all timers have stopped and the counter shows 20, not 5. -/
theorem animateNumber_earlier_timer_keeps_writing :
    ((run idealRound [.animate "stat-total" 20, .tick 3, .animate "stat-total" 7, .tick 3]
        World.initial).text "stat-total" = "2" ∧
      (run idealRound [.animate "stat-total" 20, .tick 3, .animate "stat-total" 7, .tick 3]
        World.initial).intervals.map (fun t => (t.id, t.targetValue)) = [(3, 20), (4, 7)]) ∧
    ((run idealRound ([.animate "stat-total" 20, .tick 3, .animate "stat-total" 7] ++
          (List.range 37).map (fun i => Event.tick (3 + i % 2)))
        World.initial).text "stat-total" = "20" ∧
      (run idealRound ([.animate "stat-total" 20, .tick 3, .animate "stat-total" 7] ++
          (List.range 37).map (fun i => Event.tick (3 + i % 2)))
        World.initial).intervals.map (fun t => (t.id, t.targetValue, t.step)) = [(4, 7, 18)]) ∧
    ((run idealRound ([.animate "stat-total" 20] ++ List.replicate 5 (.tick 3))
        World.initial).text "stat-total" = "5" ∧
      (run idealRound ([.animate "stat-total" 20] ++ List.replicate 5 (.tick 3) ++
          [.animate "stat-total" 5] ++ List.replicate 15 (.tick 3))
        World.initial).text "stat-total" = "20" ∧
      (run idealRound ([.animate "stat-total" 20] ++ List.replicate 5 (.tick 3) ++
          [.animate "stat-total" 5] ++ List.replicate 15 (.tick 3))
        World.initial).intervals = []) := by
  refine ⟨⟨by decide, by decide⟩, ⟨by decide, by decide⟩, by decide, by decide, by decide⟩

end OneInBox
